import Mathlib

/-!
Verification of the mario_trader signal/position lifecycle core.

This file gives a shallow embedding, over exact rationals, of the functions
of the repository that the specification describes:

* `mario_trader/indicators/technical.py` — rolling SMAs and Wilder-style RSI
  (pandas `rolling(...).mean()` and the `100 - 100/(1+rs)` formula, including
  the IEEE special cases `x/0 = inf` and `0/0 = nan` that the pandas code
  relies on);
* `mario_trader/strategies/signal.py` — `generate_signal`;
* `mario_trader/strategies/sma_crossover_strategy.py` —
  `generate_sma_crossover_signal` and its helpers;
* `mario_trader/strategies/monitor.py` — the decision order of the
  monitoring loop and the contingency-cascade bookkeeping;
* `mario_trader/execution.py` — `execute` (cooldown, inline signal, entry
  effects), `check_exit_conditions`, `check_rsi_divergence` and
  `calculate_lot_size`;
* `mario_trader/config.py` — the contingency lot-size multiplier table.

Candles are records of rationals; a DataFrame is a list of candles, oldest
first.  A pandas value that can be NaN is modelled as `Option ℚ` (for the
SMA columns, where NaN arises only from an insufficient window) or as `FVal`
(for RSI, where NaN arises from `0/0`).  All comparisons against a possibly
missing value are `false`, exactly as IEEE comparisons against NaN are in
Python.  Machine floats are modelled as exact rationals: no claim below
depends on rounding of binary floats, only on special values, which are
modelled explicitly.
-/

-- Batteries marks rational arithmetic `@[irreducible]` for elaborator
-- performance.  The concrete evaluations below (counterexamples and
-- witnesses run on explicit candle windows) need these operations to reduce
-- definitionally, which `unseal` restores.
unseal Rat.mul Rat.add Rat.sub Rat.inv

namespace MarioTrader

/-- One OHLC candle: fields mirror the `open`, `high`, `low`, `close`
columns of the DataFrames produced by `fetch_data`. -/
structure Candle where
  copen : ℚ
  chigh : ℚ
  clow : ℚ
  cclose : ℚ
deriving DecidableEq

instance : Inhabited Candle := ⟨⟨0, 0, 0, 0⟩⟩

/-- Candle at absolute index `i` (0 = oldest); out-of-range reads return the
default candle, and every use below is guarded so that the default is never
reached on the paths the Python code can actually execute. -/
def candleAt (df : List Candle) (i : ℕ) : Candle :=
  df.getD i default

/-- Candle at pandas negative index `-k`, i.e. `df.iloc[-k]`. -/
def fromEnd (df : List Candle) (k : ℕ) : Candle :=
  candleAt df (df.length - k)

/-- The `close` column of a DataFrame. -/
def closesOf (df : List Candle) : List ℚ :=
  df.map Candle.cclose

/-- `np.sign(close - open)`: 1 for a bullish candle, -1 for a bearish one,
0 for a doji.  This is the `direction` column added by the strategies. -/
def candleDir (c : Candle) : ℤ :=
  if c.copen < c.cclose then 1 else if c.cclose < c.copen then -1 else 0

/-- `df['close'].rolling(window=n).mean()` at row `i`: the arithmetic mean
of rows `i-n+1 .. i`, or `none` (pandas NaN) while fewer than `n` rows are
available or `i` is out of range. -/
def smaAt (n : ℕ) (closes : List ℚ) (i : ℕ) : Option ℚ :=
  if n ≤ i + 1 ∧ i < closes.length then
    some (((closes.drop (i + 1 - n)).take n).sum / n)
  else none

/-- Per-row positive deltas: `delta.where(delta > 0, 0).fillna(0)` from
`calculate_rsi`.  Row 0 has no delta and is filled with 0. -/
def gainsOf : List ℚ → List ℚ
  | [] => []
  | c :: rest => 0 :: List.zipWith (fun a b => max (b - a) 0) (c :: rest) rest

/-- Per-row negative-delta magnitudes: `(-delta.where(delta < 0, 0)).fillna(0)`. -/
def lossesOf : List ℚ → List ℚ
  | [] => []
  | c :: rest => 0 :: List.zipWith (fun a b => max (a - b) 0) (c :: rest) rest

/-- `xs.rolling(window=w, min_periods=1).mean()` at row `i`: the mean of the
last `min (i+1) w` entries ending at row `i`. -/
def avgAt (xs : List ℚ) (w i : ℕ) : ℚ :=
  ((xs.drop (i + 1 - w)).take (min (i + 1) w)).sum / (min (i + 1) w)

/-- `avg_gain` of `calculate_rsi` (period 14) at row `i`. -/
def avgGainAt (closes : List ℚ) (i : ℕ) : ℚ :=
  avgAt (gainsOf closes) 14 i

/-- `avg_loss` of `calculate_rsi` (period 14) at row `i`. -/
def avgLossAt (closes : List ℚ) (i : ℕ) : ℚ :=
  avgAt (lossesOf closes) 14 i

/-- A float cell that can be NaN.  RSI needs this: with `avg_loss = 0` the
division `rs = avg_gain/avg_loss` is IEEE `inf` (when `avg_gain > 0`, giving
RSI exactly 100) or `nan` (when `avg_gain = 0`, which then propagates). -/
inductive FVal where
  | val : ℚ → FVal
  | nan : FVal
deriving DecidableEq

/-- `rsi = 100 - 100/(1 + avg_gain/avg_loss)` with the IEEE special cases
spelled out: `g/0 = +inf` for `g > 0` (so the RSI is 100) and `0/0 = nan`. -/
def rsiOf (g l : ℚ) : FVal :=
  if l = 0 then
    if 0 < g then FVal.val 100 else FVal.nan
  else
    FVal.val (100 - 100 / (1 + g / l))

/-- The `RSI` column of `calculate_rsi(df, 14)` at row `i`. -/
def rsiAt (closes : List ℚ) (i : ℕ) : FVal :=
  rsiOf (avgGainAt closes i) (avgLossAt closes i)

/-- `v > b` for a possibly-NaN left operand (NaN comparisons are false). -/
def FVal.gtQ : FVal → ℚ → Bool
  | FVal.val q, b => decide (b < q)
  | FVal.nan, _ => false

/-- `v < b` for a possibly-NaN left operand. -/
def FVal.ltQ : FVal → ℚ → Bool
  | FVal.val q, b => decide (q < b)
  | FVal.nan, _ => false

/-- `a < b` where either side may be NaN. -/
def FVal.ltF : FVal → FVal → Bool
  | FVal.val a, FVal.val b => decide (a < b)
  | _, _ => false

/-- `a > b` where either side may be NaN. -/
def FVal.gtF : FVal → FVal → Bool
  | FVal.val a, FVal.val b => decide (b < a)
  | _, _ => false

/-- `0 ≤ v ≤ 100` as a Boolean; false for NaN. -/
def FVal.inUnitRange : FVal → Bool
  | FVal.val q => decide (0 ≤ q ∧ q ≤ 100)
  | FVal.nan => false

/-- `a > x` where `x` is a possibly-NaN column value. -/
def oGt (a : ℚ) : Option ℚ → Bool
  | some q => decide (q < a)
  | none => false

/-- `a < x` where `x` is a possibly-NaN column value. -/
def oLt (a : ℚ) : Option ℚ → Bool
  | some q => decide (a < q)
  | none => false

/-- `a <= x` where `x` is a possibly-NaN column value. -/
def oLe (a : ℚ) : Option ℚ → Bool
  | some q => decide (a ≤ q)
  | none => false

/-- NaN-propagating subtraction of two column values. -/
def oSub : Option ℚ → Option ℚ → Option ℚ
  | some a, some b => some (a - b)
  | _, _ => none

/-- `abs x > t` for a possibly-NaN `x`. -/
def oAbsGt : Option ℚ → ℚ → Bool
  | some q, t => decide (t < |q|)
  | none, _ => false

/-- `abs x < t` for a possibly-NaN `x`.  Note that for NaN this is false, so
a guard of the form `if abs(...) < t: return` falls through on NaN. -/
def oAbsLt : Option ℚ → ℚ → Bool
  | some q, t => decide (|q| < t)
  | none, _ => false

/-- `lo <= x <= hi` for a possibly-NaN `x` (false on NaN). -/
def oBetween (lo : ℚ) (x : Option ℚ) (hi : ℚ) : Bool :=
  match x with
  | some q => decide (lo ≤ q ∧ q ≤ hi)
  | none => false

/-- The indicator columns that `calculate_indicators` adds for one row:
`200_SMA`, `21_SMA`, `50_SMA` and `RSI`.  There is no failure constructor
because the Python function has no failure path: it always returns the
DataFrame, with NaN in the cells whose window is too short. -/
structure IndicatorRow where
  sma200 : Option ℚ
  sma21 : Option ℚ
  sma50 : Option ℚ
  rsi : FVal
deriving DecidableEq

instance : Inhabited IndicatorRow := ⟨⟨none, none, none, FVal.nan⟩⟩

/-- Row `i` of the DataFrame returned by `calculate_indicators`. -/
def indicatorRow (closes : List ℚ) (i : ℕ) : IndicatorRow :=
  ⟨smaAt 200 closes i, smaAt 21 closes i, smaAt 50 closes i, rsiAt closes i⟩

/-- `calculate_indicators(df)`: the full table of indicator columns, one row
per candle.  For a window shorter than 200 the `200_SMA` cells are all NaN,
but the function still returns the table. -/
def calculateIndicators (df : List Candle) : List IndicatorRow :=
  (List.range df.length).map (indicatorRow (closesOf df))

/-- Result triple of the signal generators:
`(signal, stop_loss, current_market_price)`. -/
structure SignalResult where
  signal : ℤ
  stopLoss : ℚ
  price : ℚ
deriving DecidableEq

/-- `generate_signal` from `mario_trader/strategies/signal.py`.  The locals
mirror the Python ones; the final candle's close is compared against the
`200_SMA` of the same row, the 3-down-1-up (resp. 3-up-1-down) pattern is
read off the `direction` column, the candle at `iloc[-2]` must straddle its
own `21_SMA`, and the RSI gate is `> 50` for Buy and `< 50` for Sell.  On no
signal the function returns `(0, 0, price)` exactly as the source does. -/
def generateSignal (df : List Candle) : SignalResult :=
  let closes := closesOf df
  let n := df.length
  let price := (fromEnd df 1).cclose
  let sma200 := smaAt 200 closes (n - 1)
  let sma21 := smaAt 21 closes (n - 1)
  let sma50 := smaAt 50 closes (n - 1)
  let rsi := rsiAt closes (n - 1)
  let dirm : ℕ → ℤ := fun k => candleDir (fromEnd df k)
  let touched :=
    oBetween (fromEnd df 2).clow (smaAt 21 closes (n - 2)) (fromEnd df 2).chigh
  let dist := |(sma21.getD 0) - price|
  if oGt price sma200 && oAbsGt (oSub sma21 sma50) (1/10000) &&
      (dirm 4 == -1 && dirm 3 == -1 && dirm 2 == -1) && dirm 1 == 1 &&
      touched && rsi.gtQ 50 then
    ⟨1, price - dist, price⟩
  else if oLt price sma200 && oAbsGt (oSub sma21 sma50) (1/10000) &&
      (dirm 4 == 1 && dirm 3 == 1 && dirm 2 == 1) && dirm 1 == -1 &&
      touched && rsi.ltQ 50 then
    ⟨-1, price + dist, price⟩
  else
    ⟨0, 0, price⟩

/-- `check_price_crossed_200sma_recently(df, lookback=10)`: scan the pairs
`(iloc[-i-1], iloc[-i])` for `i = 1 .. min(lookback, len(df)) - 1` for a
close crossing its `200_SMA` in either direction. -/
def checkPriceCrossed200 (df : List Candle) (lookback : ℕ) : Bool :=
  let closes := closesOf df
  let n := df.length
  (List.range' 1 (min lookback n - 1)).any fun i =>
    let prevC := (fromEnd df (i + 1)).cclose
    let currC := (fromEnd df i).cclose
    let prevS := smaAt 200 closes (n - (i + 1))
    let currS := smaAt 200 closes (n - i)
    (oLt prevC prevS && oGt currC currS) || (oGt prevC prevS && oLt currC currS)

/-- `check_consecutive_candles(df, direction, count)`: the most recent candle
is opposite to `direction` and the `count` candles before it all have
direction `-direction` (for a buy check, `direction = -1`). -/
def checkConsecutiveCandles (df : List Candle) (d : ℤ) (count : ℕ) : Bool :=
  if df.length < count + 1 then false
  else
    let cur := candleDir (fromEnd df 1)
    if d == -1 && cur == 1 then
      (List.range' 2 count).all fun i =>
        decide (i ≤ df.length) && (candleDir (fromEnd df i) == -1)
    else if d == 1 && cur == -1 then
      (List.range' 2 count).all fun i =>
        decide (i ≤ df.length) && (candleDir (fromEnd df i) == 1)
    else false

/-- `sufficient_separation` of `generate_sma_crossover_signal`: the 21/50
SMA gap exceeds 0.0001 or the price crossed the 200-SMA within the last 10
candles. -/
def sufficientSeparation (df : List Candle) : Bool :=
  let closes := closesOf df
  let n := df.length
  oAbsGt (oSub (smaAt 21 closes (n - 1)) (smaAt 50 closes (n - 1))) (1/10000) ||
    checkPriceCrossed200 df 10

/-- `generate_sma_crossover_signal` from
`mario_trader/strategies/sma_crossover_strategy.py`.  Branch order follows
the source: debug-mode Buy, full Buy, debug-mode Sell, full Sell.  Note that
BOTH the Buy and the Sell branch require the close to be ABOVE the 200-SMA
(`price_above_200sma` is recomputed unchanged before the Sell check). -/
def generateSmaCrossoverSignal (df : List Candle) (debugMode : Bool) : SignalResult :=
  let closes := closesOf df
  let n := df.length
  let price := (fromEnd df 1).cclose
  let sma200 := smaAt 200 closes (n - 1)
  let sma21 := smaAt 21 closes (n - 1)
  let rsi := rsiAt closes (n - 1)
  let priceAbove := oGt price sma200
  let sepOk := sufficientSeparation df
  let buyPattern := checkConsecutiveCandles df (-1) 3
  let sellPattern := checkConsecutiveCandles df 1 3
  let dist := |(sma21.getD 0) - price|
  if debugMode && priceAbove && rsi.gtQ 50 then
    ⟨1, price - dist, price⟩
  else if priceAbove && sepOk && buyPattern && rsi.gtQ 50 then
    ⟨1, price - dist, price⟩
  else if debugMode && priceAbove && rsi.ltQ 50 then
    ⟨-1, price + dist, price⟩
  else if priceAbove && sepOk && sellPattern && rsi.ltQ 50 then
    ⟨-1, price + dist, price⟩
  else
    ⟨0, 0, price⟩

/-- The inline signal block of `execute` (execution.py lines 84-132): RSI
gate first, then for Buy three strictly falling highs-and-lows followed by a
bullish engulfing candle; for Sell the mirror image. -/
def executeSignal (df : List Candle) : ℤ :=
  let rsi := rsiAt (closesOf df) (df.length - 1)
  let c := fromEnd df 1
  let p := fromEnd df 2
  if rsi.gtQ 50 then
    let bearish := (List.range' 1 3).all fun i =>
      decide ((fromEnd df i).chigh < (fromEnd df (i + 1)).chigh) &&
        decide ((fromEnd df i).clow < (fromEnd df (i + 1)).clow)
    let engulf := decide (p.copen < c.cclose) && decide (c.copen < p.cclose) &&
      decide (p.copen - p.cclose < c.cclose - c.copen)
    if bearish && engulf then 1 else 0
  else if rsi.ltQ 50 then
    let bullish := (List.range' 1 3).all fun i =>
      decide ((fromEnd df (i + 1)).chigh < (fromEnd df i).chigh) &&
        decide ((fromEnd df (i + 1)).clow < (fromEnd df i).clow)
    let engulf := decide (c.cclose < p.copen) && decide (p.cclose < c.copen) &&
      decide (p.cclose - p.copen < c.copen - c.cclose)
    if bullish && engulf then -1 else 0
  else 0

/-- The `min_sma_distance` of `execute`: 0.0010, or 0.01 for JPY pairs. -/
def minSmaDistance (isJPY : Bool) : ℚ :=
  if isJPY then 1/100 else 1/1000

/-- The signal decision of `execute` after its two pre-checks (lines 70-132).
Both guards are written exactly as the source writes them: `price <= 200_SMA`
and `abs(21_SMA - 50_SMA) < min_sma_distance` abort the cycle only when the
comparison is TRUE, so a NaN (short window) falls through to the signal
block. -/
def executeDecision (df : List Candle) (isJPY : Bool) : ℤ :=
  let closes := closesOf df
  let n := df.length
  let price := (fromEnd df 1).cclose
  if oLe price (smaAt 200 closes (n - 1)) then 0
  else if oAbsLt (oSub (smaAt 21 closes (n - 1)) (smaAt 50 closes (n - 1)))
      (minSmaDistance isJPY) then 0
  else executeSignal df

/-- One open venue position `{ticket-type, price_open, volume}` as
`mt5.positions_get` reports it (`type` 0 = buy, 1 = sell; here `ptype` is 1
for buy and -1 for sell to match the signal convention). -/
structure PrimaryPos where
  ptype : ℤ
  entry : ℚ
  volume : ℚ
deriving DecidableEq

/-- One pending stop order as placed by `set_pending_order` during entry. -/
structure PendingOrder where
  isBuyStop : Bool
  price : ℚ
  volume : ℚ
  slPrice : ℚ
  tpPrice : ℚ
deriving DecidableEq

/-- The per-pair record `TRADING_SETTINGS[f"{pair}_contingency"]` written by
`execute` (lines 205-214 / 250-259).  It lives in a single dictionary slot
per instrument, so a second entry overwrites the first. -/
structure ContRecord where
  ctype : ℤ
  initialEntry : ℚ
  initialLotSize : ℚ
  sma21 : ℚ
  takeProfit : ℚ
  entryToSmaDistance : ℚ
deriving DecidableEq

/-- The state `execute` can read or write for one instrument: the cooldown
timestamp `last_trade_time[pair]`, the venue's open positions and pending
orders for the pair, and the per-pair contingency slot. -/
structure ExecState where
  lastTradeTime : Option ℕ
  openPositions : List PrimaryPos
  pendingOrders : List PendingOrder
  contingency : Option ContRecord
deriving DecidableEq

/-- The per-cycle external inputs of `execute`: the wall-clock time in
seconds, whether the pair is JPY-quoted, the fetched candle window
(`none` = fetch failed), the Gemini verification verdict and whether it is
required, the lot size returned by `calculate_lot_size`, and whether the
venue accepts the market order and the pending order. -/
structure ExecInput where
  now : ℕ
  isJPY : Bool
  df : Option (List Candle)
  geminiVerified : Bool
  geminiRequired : Bool
  lotSize : ℚ
  orderSuccess : Bool
  pendingSuccess : Bool

/-- The body of `execute` after the cooldown gate: fetch check, indicator
pre-checks and signal, cooldown-timestamp update, Gemini gate, lot-size
gate, then the entry effects (market order, take-profit at twice the
entry-to-21-SMA distance, opposite stop order at the 21-SMA with twice the
lot, and the contingency record).  Note there is no check of
`st.openPositions` anywhere. -/
def executeBody (st : ExecState) (inp : ExecInput) : Bool × ExecState :=
  match inp.df with
  | none => (false, st)
  | some df =>
    let n := df.length
    let price := (fromEnd df 1).cclose
    let sma21v := (smaAt 21 (closesOf df) (n - 1)).getD 0
    let d := executeDecision df inp.isJPY
    if d == 0 then (false, st)
    else
      let st1 := { st with lastTradeTime := some inp.now }
      if inp.geminiRequired && !inp.geminiVerified then (false, st1)
      else if inp.lotSize ≤ 0 then (false, st1)
      else if !inp.orderSuccess then (false, st1)
      else
        let dist := |price - sma21v|
        let tp := if d == 1 then price + 2 * dist else price - 2 * dist
        let newPos : PrimaryPos := ⟨d, price, inp.lotSize⟩
        let pend : PendingOrder :=
          if d == 1 then
            ⟨false, sma21v, inp.lotSize * 2, sma21v + 3 * dist, sma21v - 2 * dist⟩
          else
            ⟨true, sma21v, inp.lotSize * 2, sma21v - 3 * dist, sma21v + 2 * dist⟩
        let crec : ContRecord := ⟨d, price, inp.lotSize, sma21v, tp, dist⟩
        (true,
          { st1 with
            openPositions := st1.openPositions ++ [newPos]
            pendingOrders :=
              if inp.pendingSuccess then st1.pendingOrders ++ [pend]
              else st1.pendingOrders
            contingency := some crec })

/-- `execute(forex_pair)`: the 1-hour (3600 s) cooldown gate, then the body.
The only thing that can stop a second primary entry on a pair that already
has an open position is this cooldown. -/
def execute (st : ExecState) (inp : ExecInput) : Bool × ExecState :=
  match st.lastTradeTime with
  | some t => if inp.now < t + 3600 then (false, st) else executeBody st inp
  | none => executeBody st inp

/-- Trade direction, the `'buy'` / `'sell'` strings of `monitor_trade`. -/
inductive TradeDir where
  | buy : TradeDir
  | sell : TradeDir
deriving DecidableEq

/-- Opposite direction. -/
def TradeDir.opp : TradeDir → TradeDir
  | .buy => .sell
  | .sell => .buy

/-- `detect_rsi_divergence(df, period=14)` from technical.py: compares the
close at `iloc[-2]` with the close at `iloc[-14]` and the RSI at `iloc[-3]`
with the RSI at `iloc[-14]`. -/
def detectRsiDivergence (df : List Candle) : ℤ :=
  let closes := closesOf df
  let n := df.length
  let r : ℕ → FVal := fun k => rsiAt closes (n - k)
  if decide ((fromEnd df 14).cclose < (fromEnd df 2).cclose) &&
      FVal.ltF (r 3) (r 14) then 1
  else if decide ((fromEnd df 2).cclose < (fromEnd df 14).cclose) &&
      FVal.gtF (r 3) (r 14) then -1
  else 0

/-- `check_stop_loss` from monitor.py, with the comparison directions the
source actually uses (`>` for buy, `<` for sell). -/
def checkStopLoss (currentPrice stopLoss : ℚ) (t : TradeDir) : Bool :=
  match t with
  | .buy => decide (stopLoss < currentPrice)
  | .sell => decide (currentPrice < stopLoss)

/-- The per-iteration decision of the main monitoring loop of
`monitor_trade` (monitor.py lines 94-148), in source order: account-drawdown
close first, then the 2x profit-target close, then the divergence-in-profit
close, then the stop-loss trigger that starts the contingency phase. -/
inductive MonAction where
  | closeAllAccountDown : MonAction
  | closeAllProfitTarget : MonAction
  | closeAllDivergence : MonAction
  | triggerContingency : MonAction
  | continueMonitoring : MonAction
deriving DecidableEq

/-- The values `monitor_trade` fixes before its loop: the trade direction,
the balance at entry, the entry price, the entry-to-21-SMA distance and the
reference stop-loss. -/
structure MonCtx where
  orderType : TradeDir
  initialBalance : ℚ
  entryPrice : ℚ
  distanceTo21 : ℚ
  stopLoss : ℚ

/-- The per-iteration market inputs of the monitoring loop. -/
structure MonInput where
  currentPrice : ℚ
  currentBalance : ℚ
  df : List Candle

/-- One iteration of the main monitoring loop of `monitor_trade`. -/
def monitorDecision (ctx : MonCtx) (inp : MonInput) : MonAction :=
  let pct := (inp.currentBalance - ctx.initialBalance) / ctx.initialBalance * 100
  if pct ≤ -20 then
    MonAction.closeAllAccountDown
  else
    let profitDistance := 2 * ctx.distanceTo21
    if (ctx.orderType == TradeDir.buy &&
          decide (ctx.entryPrice + profitDistance ≤ inp.currentPrice)) ||
        (ctx.orderType == TradeDir.sell &&
          decide (inp.currentPrice ≤ ctx.entryPrice - profitDistance)) then
      MonAction.closeAllProfitTarget
    else
      let inProfit :=
        (ctx.orderType == TradeDir.buy && decide (ctx.entryPrice < inp.currentPrice)) ||
          (ctx.orderType == TradeDir.sell && decide (inp.currentPrice < ctx.entryPrice))
      if detectRsiDivergence inp.df != 0 && inProfit then
        MonAction.closeAllDivergence
      else if checkStopLoss inp.currentPrice ctx.stopLoss ctx.orderType then
        MonAction.triggerContingency
      else
        MonAction.continueMonitoring

/-- One entry of the `contingency_trades` list of `monitor_trade`. -/
structure ContTrade where
  tradeType : TradeDir
  volume : ℚ
  entryPrice : ℚ
deriving DecidableEq

instance : Inhabited ContTrade := ⟨⟨TradeDir.buy, 0, 0⟩⟩

/-- Step 1 of the contingency phase (monitor.py lines 166-182 / 208-224):
an order opposite to the primary, at the 21-SMA, with twice the initial
volume. -/
def contingencyLeg1 (primary : TradeDir) (volume sma21 : ℚ) : ContTrade :=
  ⟨primary.opp, volume * 2, sma21⟩

/-- Step 2 of the contingency phase (monitor.py lines 184-204 / 226-247):
once the step-1 order's level is reached, an order back in the primary
direction, at the original entry price, with three times the initial
volume. -/
def contingencyLeg2 (primary : TradeDir) (volume entry : ℚ) : ContTrade :=
  ⟨primary, volume * 3, entry⟩

/-- Activation test of the cascade loop (monitor.py lines 256 and 273):
a recorded buy trade "activates" when the price is at or above its entry
price, a sell when at or below it. -/
def cascadeActivates (price : ℚ) (t : ContTrade) : Bool :=
  match t.tradeType with
  | .buy => decide (t.entryPrice ≤ price)
  | .sell => decide (price ≤ t.entryPrice)

/-- The trade the cascade loop appends when `t` activates (monitor.py lines
258-271 / 275-288): direction opposite to the ACTIVATING trade, volume
`initial_volume * (num_contingency_trades + 1)`, and entry price equal to
the (stale) 21-SMA - not the original entry price. -/
def cascadeNew (volume sma21 : ℚ) (num : ℕ) (t : ContTrade) : ContTrade :=
  ⟨t.tradeType.opp, volume * (num + 1), sma21⟩

/-- One pass of the Python `for i, trade in enumerate(contingency_trades)`
loop at a fixed price.  Appending to the list while iterating extends the
iteration in Python, which the index-plus-fuel recursion reproduces. -/
def cascadePass (volume sma21 price : ℚ) :
    ℕ → List ContTrade → ℕ → ℕ → List ContTrade × ℕ
  | 0, trades, _, num => (trades, num)
  | fuel + 1, trades, i, num =>
    if h : i < trades.length then
      let t := trades.get ⟨i, h⟩
      if cascadeActivates price t then
        cascadePass volume sma21 price fuel
          (trades ++ [cascadeNew volume sma21 num t]) (i + 1) (num + 1)
      else
        cascadePass volume sma21 price fuel trades (i + 1) num
    else (trades, num)

/-- `fuel` iterations of the `while num_contingency_trades < 10` loop of
`monitor_trade`, each one a full pass over the list at the given price. -/
def cascadeRun (volume sma21 price : ℚ) :
    ℕ → List ContTrade → ℕ → List ContTrade × ℕ
  | 0, trades, num => (trades, num)
  | fuel + 1, trades, num =>
    if num < 10 then
      let p := cascadePass volume sma21 price 50 trades 0 num
      cascadeRun volume sma21 price fuel p.1 p.2
    else (trades, num)

/-- `check_rsi_divergence(dfs, position_type)` from execution.py: needs at
least 5 candles, then compares the extremum and RSI at `iloc[-1]` against
`iloc[-3]` of the last five rows. -/
def checkRsiDivergenceExec (df : List Candle) (isBuy : Bool) : Bool :=
  if df.length < 5 then false
  else
    let closes := closesOf df
    let n := df.length
    if isBuy then
      decide ((fromEnd df 3).chigh < (fromEnd df 1).chigh) &&
        FVal.ltF (rsiAt closes (n - 1)) (rsiAt closes (n - 3))
    else
      decide ((fromEnd df 1).clow < (fromEnd df 3).clow) &&
        FVal.gtF (rsiAt closes (n - 1)) (rsiAt closes (n - 3))

/-- The support/resistance level lists produced by
`detect_support_resistance`, as `check_exit_conditions` consumes them. -/
structure SRLevels where
  resistance : List ℚ
  support : List ℚ
deriving DecidableEq

/-- `find_nearest_level`: the highest support below the price for a buy, the
lowest resistance above it for a sell. -/
def findNearestLevel (price : ℚ) (levels : SRLevels) (isBuy : Bool) : Option ℚ :=
  if isBuy then (levels.support.filter (fun l => l < price)).max?
  else (levels.resistance.filter (fun l => price < l)).min?

/-- One venue position as `check_exit_conditions` reads it (`type` 0 = buy,
1 = sell, `price_open` the fill price). -/
structure MtPosition where
  ptype : ℕ
  priceOpen : ℚ
deriving DecidableEq

/-- Why `check_exit_conditions` answered as it did (the Python function
returns a reason string; an enum stands in for it). -/
inductive ExitReason where
  | noPositions : ExitReason
  | notInProfit : ExitReason
  | rsiDivergence : ExitReason
  | srReturn : ExitReason
  | geminiExit : ExitReason
  | hold : ExitReason
deriving DecidableEq

/-- Inputs of `check_exit_conditions`: the candle window, the open
positions, the optional support/resistance levels, and the Gemini
monitoring configuration together with the oracle's answer for this cycle
(`geminiExitFlag`, `geminiConfidence`). -/
structure ExitInput where
  df : List Candle
  positions : List MtPosition
  srLevels : Option SRLevels
  geminiEnabled : Bool
  geminiRequired : Bool
  geminiInterval : ℕ
  minConfidence : ℚ
  geminiExitFlag : Bool
  geminiConfidence : ℚ

/-- `check_exit_conditions` from execution.py (lines 274-370).  The decisive
structural fact: there is NO account-balance input and no drawdown rule; an
unprofitable position returns `(False, "Position not in profit")` before any
other check runs, and only divergence, support/resistance return and the
gated Gemini opinion can close a (profitable) position. -/
def checkExitConditions (inp : ExitInput) : Bool × ExitReason :=
  match inp.positions with
  | [] => (false, ExitReason.noPositions)
  | pos :: _ =>
    let price := (fromEnd inp.df 1).cclose
    let isBuy := pos.ptype == 0
    let isProfitable :=
      if isBuy then decide (pos.priceOpen < price) else decide (price < pos.priceOpen)
    let profitPips :=
      (if isBuy then price - pos.priceOpen else pos.priceOpen - price) * 10000
    if !isProfitable then (false, ExitReason.notInProfit)
    else if checkRsiDivergenceExec inp.df isBuy then (true, ExitReason.rsiDivergence)
    else
      let srHit :=
        match inp.srLevels with
        | none => false
        | some levels =>
          match findNearestLevel price levels isBuy with
          | some lvl => decide (|price - lvl| < 5/10000)
          | none => false
      if srHit then (true, ExitReason.srReturn)
      else if inp.geminiEnabled &&
          (inp.df.length % inp.geminiInterval == 0 || decide ((20:ℚ) < profitPips)) &&
          inp.geminiExitFlag &&
          (inp.geminiRequired || decide (inp.minConfidence ≤ inp.geminiConfidence)) then
        (true, ExitReason.geminiExit)
      else (false, ExitReason.hold)

/-- Python 3 `round` to an integer: round-half-to-even.  Away from a tie it
agrees with rounding to the nearest integer; at a tie it picks the even
neighbour. -/
def pyRound (q : ℚ) : ℤ :=
  if q - ⌊q⌋ = 1/2 then
    if ⌊q⌋ % 2 = 0 then ⌊q⌋ else ⌊q⌋ + 1
  else round q

/-- Inputs of `calculate_lot_size`: the tick, the account snapshot, the
stop distance argument, the symbol constraints, and the currency
relationships the pip-value branch inspects.  `riskPercentage` is
`TRADING_SETTINGS["risk_percentage"]` (0.02 in config.py);
`conversionRate` is the mid price of the `{account_currency}USD` symbol
when the account currency is in neither leg of the pair (`none` when that
symbol has no tick). -/
structure LotInput where
  bid : ℚ
  ask : ℚ
  balance : ℚ
  equity : ℚ
  riskPercentage : ℚ
  stopDistance : ℚ
  isJPY : Bool
  digits : ℕ
  volumeMin : ℚ
  volumeMax : ℚ
  volumeStep : ℚ
  accountIsQuote : Bool
  accountIsBase : Bool
  conversionRate : Option ℚ

/-- The mid price `(bid + ask) / 2` used by `calculate_lot_size`. -/
def lotMidPrice (inp : LotInput) : ℚ :=
  (inp.bid + inp.ask) / 2

/-- The raw risk-based lot `account_risk_amount / (stop_loss_in_pips *
pip_value_per_lot)` of execution.py lines 1091-1161, before any clamping. -/
def lotRaw (inp : LotInput) : ℚ :=
  let currentPrice := lotMidPrice inp
  let riskAmount := inp.balance * inp.riskPercentage
  let minStop : ℚ := if inp.isJPY then 1/100 else 1/1000
  let d := if inp.stopDistance < minStop then minStop else inp.stopDistance
  let onePip : ℚ := if inp.isJPY then 1/100 else 1/10000
  let pipMultiplier : ℚ :=
    if (!inp.isJPY && inp.digits == 5) || (inp.isJPY && inp.digits == 3) then 1/10
    else 1
  let pips0 := d / pipMultiplier
  let pips := if pips0 ≤ 0 then 10 else pips0
  let pipValuePerLot :=
    if inp.accountIsQuote then onePip * 100000
    else
      let base := onePip / currentPrice * 100000
      if !inp.accountIsBase && !inp.accountIsQuote then
        match inp.conversionRate with
        | some r => base * r
        | none => base
      else base
  riskAmount / (pips * pipValuePerLot)

/-- The effective maximum of `calculate_lot_size` (lines 1163-1168):
the smaller of the broker's `volume_max` and 20% of equity expressed in
standard lots. -/
def lotEffMax (inp : LotInput) : ℚ :=
  min inp.volumeMax (inp.equity / (lotMidPrice inp * 100) * (1/5))

/-- The clamped lot `max(min(lot_size, max_lot_size), min_lot_size)`. -/
def lotClamped (inp : LotInput) : ℚ :=
  max (min (lotRaw inp) (lotEffMax inp)) inp.volumeMin

/-- `calculate_lot_size`: the clamped lot rounded with Python `round` to the
NEAREST multiple of `volume_step` (`round(lot_size / lot_step) * lot_step`,
line 1176) - nearest, not downward. -/
def calculateLotSize (inp : LotInput) : ℚ :=
  (pyRound (lotClamped inp / inp.volumeStep) : ℚ) * inp.volumeStep

/-- The `CONTINGENCY_TRADE_SETTINGS["lot_size_multipliers"]` table of
config.py (keys `v1` .. `v13`).  It is imported by monitor.py but never
read by any code path. -/
def lotSizeMultipliers : ℕ → Option ℚ
  | 1 => some 1
  | 2 => some (133/100)
  | 3 => some 1
  | 4 => some (133/100)
  | 5 => some (244/100)
  | 6 => some (399/100)
  | 7 => some (45/10)
  | 8 => some (67/10)
  | 9 => some (95/10)
  | 10 => some (1133/100)
  | 11 => some (145/10)
  | 12 => some (1753/100)
  | 13 => some (1965/100)
  | _ => none

/-- Which columns a DataFrame object currently carries beyond OHLC.  The
strategy functions add columns to the very DataFrame object the caller
passed in (pandas column assignment mutates in place), which this record
makes observable. -/
structure Cols where
  sma200 : Bool
  sma21 : Bool
  sma50 : Bool
  rsi : Bool
  direction : Bool
  candleSize : Bool
  candleRange : Bool
deriving DecidableEq

/-- A raw window as fetched from the venue: no indicator columns yet. -/
def Cols.raw : Cols :=
  ⟨false, false, false, false, false, false, false⟩

/-- A caller-owned DataFrame: the candle data plus the set of columns the
object currently carries. -/
structure Frame where
  candles : List Candle
  cols : Cols
deriving DecidableEq

/-- Column effect of `calculate_indicators(df)`: adds `200_SMA`, `21_SMA`,
`50_SMA` and `RSI` to the caller's object. -/
def calculateIndicatorsCols (c : Cols) : Cols :=
  { c with sma200 := true, sma21 := true, sma50 := true, rsi := true }

/-- `generate_signal` as the caller observes it: the returned triple is a
function of the candle data alone, but the caller's DataFrame comes back
with the indicator columns plus `direction`, `candle_size` and
`candle_range` added (signal.py lines 21-33). -/
def generateSignalFrame (f : Frame) : SignalResult × Frame :=
  (generateSignal f.candles,
    { f with
      cols := { calculateIndicatorsCols f.cols with
                direction := true, candleSize := true, candleRange := true } })

/-- Shorthand candle constructor in `(open, high, low, close)` order. -/
def mkC (o h l c : ℚ) : Candle :=
  ⟨o, h, l, c⟩

/-- A 200-candle window that drives `execute`'s inline logic to a Buy
signal: a low shelf at 90, a shelf at 100, then four candles with strictly
falling highs and lows ending in a bullish engulfing candle, with RSI far
above 50 and a wide 21/50-SMA gap. -/
def dfExecBuy200 : List Candle :=
  List.replicate 150 (mkC 90 (181/2) (179/2) 90) ++
    List.replicate 46 (mkC 100 (201/2) (199/2) 100) ++
    [mkC 104 105 103 (521/5),
     mkC (522/5) (524/5) (514/5) 104,
     mkC (521/5) (523/5) (513/5) (1039/10),
     mkC (519/5) (522/5) (512/5) (1043/10)]

/-- The same shape on only 30 candles: `200_SMA` (and `50_SMA`) are NaN, yet
`execute`'s NaN-blind guards fall through and the inline logic still says
Buy. -/
def dfShortBuy30 : List Candle :=
  List.replicate 26 (mkC 100 (201/2) (199/2) 100) ++
    [mkC 104 105 103 (521/5),
     mkC (522/5) (524/5) (514/5) 104,
     mkC (521/5) (523/5) (513/5) (1039/10),
     mkC (519/5) (522/5) (512/5) (1043/10)]

/-- A 215-candle window on which `generate_signal` emits a Sell: the close
sits far below the 200-SMA, three bullish candles precede a bearish one, the
candle at `iloc[-2]` straddles its 21-SMA, and RSI is 0. -/
def dfSellMirror215 : List Candle :=
  List.replicate 196 (mkC 110 (221/2) (219/2) 110) ++
    List.replicate 15 (mkC 99 (199/2) (197/2) 99) ++
    List.replicate 3 (mkC (197/2) (503/5) (492/5) 99) ++
    [mkC (197/2) 99 (979/10) 98]

/-- A 215-candle window on which `generate_sma_crossover_signal` emits a
Sell while the close (100) is ABOVE its 200-SMA (about 91.04): low shelf at
90, shelf at 101, three bullish candles, one bearish candle, RSI 0. -/
def dfSellAbove215 : List Candle :=
  List.replicate 196 (mkC 90 (181/2) (179/2) 90) ++
    List.replicate 15 (mkC 101 (203/2) (201/2) 101) ++
    List.replicate 3 (mkC (201/2) (203/2) (199/2) 101) ++
    [mkC (201/2) 101 (199/2) 100]

/-- A 215-candle window on which `generate_sma_crossover_signal` emits a
Buy with a 21/50-SMA separation of 29/105000 (about 0.00028, between the
code's 0.0001 threshold and the claimed 0.0005) and no 200-SMA cross within
the last 10 candles. -/
def dfBuyTinySep215 : List Candle :=
  List.replicate 150 (mkC 99 (199/2) (197/2) 99) ++
    List.replicate 61 (mkC 100 (201/2) (199/2) 100) ++
    List.replicate 3 (mkC (201/2) (203/2) (199/2) 100) ++
    [mkC 100 101 (199/2) (10001/100)]

/-- An instrument state with one ALREADY OPEN primary buy position and a
last entry 2 hours old (cooldown elapsed). -/
def execStateOpen : ExecState :=
  ⟨some 0, [⟨1, 100, 1/10⟩], [], none⟩

/-- A cycle input for `execute`: two hours after the previous entry, the Buy
window above, Gemini approval not required, a valid lot and a venue that
accepts both orders. -/
def execInputBuy : ExecInput :=
  ⟨7200, false, some dfExecBuy200, true, false, 1/10, true, true⟩

/-- The contingency list after both initial legs of a buy cascade exist:
leg 1 sell 0.2 @ 95 (the 21-SMA), leg 2 buy 0.3 @ 100 (the entry). -/
def cascadeExampleInit : List ContTrade :=
  [contingencyLeg1 TradeDir.buy (1/10) 95, contingencyLeg2 TradeDir.buy (1/10) 100]

/-- Two iterations of the cascade loop at a constant price of 101 (above
the buy leg's entry, above the 21-SMA): the buy leg re-activates on each
pass and two sell legs are appended back to back. -/
def cascadeExample : List ContTrade :=
  (cascadeRun (1/10) 95 101 2 cascadeExampleInit 2).1

/-- An exit-monitor input describing a drawdown scenario: a buy position
opened at 100 with the price now at 90 (deep under water, the account well
below 80% of its entry value). -/
def exitInputDrawdown : ExitInput :=
  ⟨List.replicate 5 (mkC 90 (181/2) (179/2) 90), [⟨0, 100⟩], none,
    false, false, 15, 7/10, false, 0⟩

/-- Lot-sizer input with `volume_max = 0.018` and `volume_step = 0.01`:
the raw lot (2000) clamps to 0.018 and then ROUNDS UP to 0.02, leaving the
broker's allowed range. -/
def lotInputCex : LotInput :=
  ⟨1, 1, 10000, 10000, 1/50, 1/1000, false, 5, 1/100, 9/500, 1/100, true, false, none⟩

/-- Lot-sizer input with an ample `volume_max`: the equity cap (20 lots)
binds and the result is exactly 20. -/
def lotInputW : LotInput :=
  ⟨1, 1, 10000, 10000, 1/50, 1/1000, false, 5, 1/100, 100, 1/100, true, false, none⟩

/-- Fifteen constant closes: every delta is zero, so both rolling averages
are zero and the RSI cell is NaN (`0/0`). -/
def constCloses15 : List ℚ :=
  List.replicate 15 100

/-- A rolling SMA over a window longer than the whole series is NaN. -/
theorem smaAt_none_of_short (n : ℕ) (closes : List ℚ) (i : ℕ)
    (h : closes.length < n) : smaAt n closes i = none := by
  unfold smaAt
  rw [if_neg]
  rintro ⟨h1, h2⟩
  omega

/-- Python rounding lands within half a unit of its argument. -/
theorem pyRound_abs_sub (q : ℚ) : |(pyRound q : ℚ) - q| ≤ 1/2 := by
  unfold pyRound
  split
  · rename_i htie
    have hfl : (⌊q⌋ : ℚ) ≤ q := Int.floor_le q
    split
    · rw [abs_le]
      constructor <;> linarith
    · push_cast
      rw [abs_le]
      constructor <;> linarith
  · rw [abs_sub_comm]
    exact abs_sub_round q

/-- Every entry of the positive-delta column is non-negative. -/
theorem zipWith_gain_nonneg :
    ∀ (l1 l2 : List ℚ) (x : ℚ),
      x ∈ List.zipWith (fun a b => max (b - a) 0) l1 l2 → 0 ≤ x
  | [], _, x, hx => by simp at hx
  | _ :: _, [], x, hx => by simp at hx
  | a :: l1, b :: l2, x, hx => by
    simp only [List.zipWith, List.mem_cons] at hx
    rcases hx with h | h
    · rw [h]; exact le_max_right _ _
    · exact zipWith_gain_nonneg l1 l2 x h

/-- Every entry of the negative-delta-magnitude column is non-negative. -/
theorem zipWith_loss_nonneg :
    ∀ (l1 l2 : List ℚ) (x : ℚ),
      x ∈ List.zipWith (fun a b => max (a - b) 0) l1 l2 → 0 ≤ x
  | [], _, x, hx => by simp at hx
  | _ :: _, [], x, hx => by simp at hx
  | a :: l1, b :: l2, x, hx => by
    simp only [List.zipWith, List.mem_cons] at hx
    rcases hx with h | h
    · rw [h]; exact le_max_right _ _
    · exact zipWith_loss_nonneg l1 l2 x h

/-- Entries of `gainsOf` are non-negative. -/
theorem gainsOf_nonneg (closes : List ℚ) :
    ∀ x ∈ gainsOf closes, 0 ≤ x := by
  cases closes with
  | nil => simp [gainsOf]
  | cons c rest =>
    intro x hx
    simp only [gainsOf, List.mem_cons] at hx
    rcases hx with h | h
    · rw [h]
    · exact zipWith_gain_nonneg _ _ x h

/-- Entries of `lossesOf` are non-negative. -/
theorem lossesOf_nonneg (closes : List ℚ) :
    ∀ x ∈ lossesOf closes, 0 ≤ x := by
  cases closes with
  | nil => simp [lossesOf]
  | cons c rest =>
    intro x hx
    simp only [lossesOf, List.mem_cons] at hx
    rcases hx with h | h
    · rw [h]
    · exact zipWith_loss_nonneg _ _ x h

/-- A rolling mean of a non-negative column is non-negative. -/
theorem avgAt_nonneg (xs : List ℚ) (w i : ℕ) (hxs : ∀ x ∈ xs, 0 ≤ x) :
    0 ≤ avgAt xs w i := by
  unfold avgAt
  apply div_nonneg
  · apply List.sum_nonneg
    intro x hx
    exact hxs x (List.mem_of_mem_drop (List.mem_of_mem_take hx))
  · positivity

/-- The rolling average gain is non-negative. -/
theorem avgGainAt_nonneg (closes : List ℚ) (i : ℕ) : 0 ≤ avgGainAt closes i :=
  avgAt_nonneg _ 14 i (gainsOf_nonneg closes)

/-- The rolling average loss is non-negative. -/
theorem avgLossAt_nonneg (closes : List ℚ) (i : ℕ) : 0 ≤ avgLossAt closes i :=
  avgAt_nonneg _ 14 i (lossesOf_nonneg closes)

/-- Claim C1 (corrected): the only guard `execute` places in front of a new
primary entry is the per-instrument cooldown - within 3600 seconds of the
recorded last entry it returns `False` and leaves the whole state (open
positions, pending orders, the single per-instrument contingency slot)
untouched.  It never inspects the open positions, so this cooldown is also
the only thing standing between an active position and a second one (see
the counterexample). -/
theorem execute_cooldown_blocks (st : ExecState) (inp : ExecInput) (t : ℕ)
    (hlast : st.lastTradeTime = some t) (hcool : inp.now < t + 3600) :
    execute st inp = (false, st) := by
  unfold execute
  rw [hlast]
  simp [hcool]

/-- Claim C1 witness: a cycle arriving 100 seconds after an entry is
rejected and changes nothing. -/
theorem execute_cooldown_blocks_witness :
    execute ⟨some 0, [], [], none⟩ ⟨100, false, none, true, false, 0, false, false⟩ =
      (false, ⟨some 0, [], [], none⟩) :=
  execute_cooldown_blocks _ _ 0 rfl (by decide)

set_option maxRecDepth 100000 in
/-- Claim C1 counterexample: with one primary buy position already open and
the last entry 7200 seconds old, a fresh Buy window makes `execute` open a
SECOND primary position on the same instrument - the entry operation never
checks for an existing active position. -/
theorem execute_second_position_cex :
    execStateOpen.openPositions.length = 1 ∧
      (execute execStateOpen execInputBuy).1 = true ∧
      (execute execStateOpen execInputBuy).2.openPositions.length = 2 := by
  decide

/-- Claim C2 (corrected): the drawdown kill-switch exists only in the main
loop of `monitor_trade`, where it is indeed the FIRST check of each
iteration: whenever the balance is at most 80% of the balance recorded at
entry, the iteration's decision is `closeAllAccountDown` (close the primary
and every recorded contingency trade), before and regardless of the
profit-target, divergence and stop-loss checks.  The per-cycle exit monitor
`check_exit_conditions` used by the multi-pair loop has no balance check at
all (see the counterexample), and the cascade phase of `monitor_trade`
never re-checks the balance. -/
theorem monitor_drawdown_first (ctx : MonCtx) (inp : MonInput)
    (hbal : 0 < ctx.initialBalance)
    (hdd : inp.currentBalance ≤ (4/5) * ctx.initialBalance) :
    monitorDecision ctx inp = MonAction.closeAllAccountDown := by
  unfold monitorDecision
  have hpct : (inp.currentBalance - ctx.initialBalance) / ctx.initialBalance * 100 ≤ -20 := by
    rw [div_mul_eq_mul_div, div_le_iff₀ hbal]
    nlinarith
  rw [if_pos hpct]

/-- Claim C2 witness: balance 7900 against an entry balance of 10000 (a 21%
drawdown) forces the close-all decision even though the fictitious position
would be profitable. -/
theorem monitor_drawdown_first_witness :
    monitorDecision ⟨TradeDir.buy, 10000, 100, 1, 99⟩ ⟨101, 7900, []⟩ =
      MonAction.closeAllAccountDown :=
  monitor_drawdown_first _ _ (by norm_num) (by norm_num)

/-- Claim C2 counterexample: `check_exit_conditions` - the exit monitor the
multi-pair trading loop actually runs each cycle - consumes no account
balance at all, and on a buy position that is under water (opened at 100,
price now 90, the very situation of a deep drawdown) it returns
`(False, "Position not in profit")`: nothing is closed on that cycle, no
matter how far the balance has fallen. -/
theorem checkExit_ignores_drawdown_cex :
    checkExitConditions exitInputDrawdown = (false, ExitReason.notInProfit) ∧
      (fromEnd exitInputDrawdown.df 1).cclose = 90 ∧
      exitInputDrawdown.positions = [⟨0, 100⟩] := by
  decide

/-- Claim C3 (corrected): the actual sizing and placement rule of the
cascade.  Leg 1 is `2 x initial` at the 21-SMA, leg 2 is `3 x initial` at
the original entry, and every later leg appended by the cascade loop has
volume `initial x (num_trades + 1)` and is placed at the (stale) 21-SMA -
not at the original entry, and never sized from the
`CONTINGENCY_TRADE_SETTINGS` multiplier table, which no code path reads.
The concrete run (two loop iterations at price 101) shows volumes
0.2, 0.3, 0.3, 0.4 at prices 95, 100, 95, 95. -/
theorem cascade_sizing_amended (primary : TradeDir) (volume sma21 entry : ℚ)
    (num : ℕ) (t : ContTrade) :
    (contingencyLeg1 primary volume sma21).volume = volume * 2 ∧
      (contingencyLeg1 primary volume sma21).entryPrice = sma21 ∧
      (contingencyLeg2 primary volume entry).volume = volume * 3 ∧
      (contingencyLeg2 primary volume entry).entryPrice = entry ∧
      (cascadeNew volume sma21 num t).volume = volume * (num + 1) ∧
      (cascadeNew volume sma21 num t).entryPrice = sma21 ∧
      cascadeExample.map ContTrade.volume = [1/5, 3/10, 3/10, 2/5] ∧
      cascadeExample.map ContTrade.entryPrice = [95, 100, 95, 95] :=
  ⟨rfl, rfl, rfl, rfl, rfl, rfl, by decide, by decide⟩

/-- Claim C3 counterexample: with initial lot 0.1, the leg placed after the
level-1 leg fills has volume 0.3, not the claimed
`initialLot x levelMultiplier[2] = 0.1 x 1.33 = 0.133`; and the leg placed
after THAT one fills sits at the 21-SMA (95 here), not at the original
entry price (100). -/
theorem cascade_sizing_cex :
    (contingencyLeg2 TradeDir.buy (1/10) 100).volume = 3/10 ∧
      (3/10 : ℚ) ≠ (1/10) * ((lotSizeMultipliers 2).getD 0) ∧
      (cascadeNew (1/10) 95 2 (contingencyLeg2 TradeDir.buy (1/10) 100)).entryPrice = 95 ∧
      ((95 : ℚ) = 100 → False) := by
  decide

/-- Claim C4 (corrected): each single cascade step does produce a leg
opposite in direction to the leg whose ACTIVATION caused it (and leg 1 is
opposite to the primary, leg 2 opposite to leg 1), but nothing makes
consecutive legs of the recorded list alternate, because an old leg can
activate again on a later pass (see the counterexample). -/
theorem cascade_alternation_amended (primary : TradeDir) (volume sma21 entry : ℚ)
    (num : ℕ) (t : ContTrade) :
    (cascadeNew volume sma21 num t).tradeType = t.tradeType.opp ∧
      (contingencyLeg1 primary volume sma21).tradeType = primary.opp ∧
      (contingencyLeg2 primary volume entry).tradeType =
        (contingencyLeg1 primary volume sma21).tradeType.opp := by
  refine ⟨rfl, rfl, ?_⟩
  cases primary <;> rfl

/-- Claim C4 counterexample: two iterations of the cascade loop at a
constant price of 101 (the buy leg at 100 re-activates on each pass) leave
the trade list as sell, buy, sell, sell: legs 3 and 4 are consecutive legs
in the SAME direction, so the alternating-direction invariant fails over
the escalation sequence. -/
theorem cascade_alternation_cex :
    cascadeExample.length = 4 ∧
      (cascadeExample.getD 2 default).tradeType = TradeDir.sell ∧
      (cascadeExample.getD 3 default).tradeType = TradeDir.sell := by
  decide

/-- Claim C5 (corrected): after clamping into
`[volume_min, min(volume_max, equity cap)]`, `calculate_lot_size` rounds to
the NEAREST multiple of `volume_step` (Python `round`, half-to-even), not
downward.  The result is therefore an exact integer multiple of the step
and lies within half a step of the clamped interval - but it can leave
`[minLot, maxLot]` by up to half a step and can exceed the clamped value
(see the counterexample). -/
theorem lot_size_step_bounds (inp : LotInput)
    (hstep : 0 < inp.volumeStep) (hminmax : inp.volumeMin ≤ lotEffMax inp) :
    (∃ k : ℤ, calculateLotSize inp = k * inp.volumeStep) ∧
      inp.volumeMin - inp.volumeStep / 2 ≤ calculateLotSize inp ∧
      calculateLotSize inp ≤ lotEffMax inp + inp.volumeStep / 2 := by
  have hstep' : inp.volumeStep ≠ 0 := ne_of_gt hstep
  have hcmin : inp.volumeMin ≤ lotClamped inp := le_max_right _ _
  have hcmax : lotClamped inp ≤ lotEffMax inp :=
    max_le (min_le_right _ _) hminmax
  have hround : |(pyRound (lotClamped inp / inp.volumeStep) : ℚ) -
      lotClamped inp / inp.volumeStep| ≤ 1/2 :=
    pyRound_abs_sub _
  have hdiff : |calculateLotSize inp - lotClamped inp| ≤ inp.volumeStep / 2 := by
    have hrw : calculateLotSize inp - lotClamped inp =
        ((pyRound (lotClamped inp / inp.volumeStep) : ℚ) -
          lotClamped inp / inp.volumeStep) * inp.volumeStep := by
      unfold calculateLotSize
      field_simp
    rw [hrw, abs_mul, abs_of_pos hstep]
    calc |(pyRound (lotClamped inp / inp.volumeStep) : ℚ) -
          lotClamped inp / inp.volumeStep| * inp.volumeStep
        ≤ (1/2) * inp.volumeStep := by
          exact mul_le_mul_of_nonneg_right hround (le_of_lt hstep)
      _ = inp.volumeStep / 2 := by ring
  have habs := abs_le.mp hdiff
  refine ⟨⟨pyRound (lotClamped inp / inp.volumeStep), rfl⟩, ?_, ?_⟩
  · linarith [habs.1]
  · linarith [habs.2]

/-- Claim C5 witness: with a 10000 balance, 2% risk, a 0.0010 stop on a
5-digit non-JPY symbol priced at 1 and an ample `volume_max`, the equity
cap of 20 lots binds and the returned size (20) is a multiple of the 0.01
step inside the half-step band around the clamped interval. -/
theorem lot_size_step_bounds_witness :
    (∃ k : ℤ, calculateLotSize lotInputW = k * lotInputW.volumeStep) ∧
      lotInputW.volumeMin - lotInputW.volumeStep / 2 ≤ calculateLotSize lotInputW ∧
      calculateLotSize lotInputW ≤ lotEffMax lotInputW + lotInputW.volumeStep / 2 :=
  lot_size_step_bounds lotInputW (by decide) (by decide)

/-- Claim C5 counterexample: with `volume_max = 0.018` and
`volume_step = 0.01` the raw lot (2000) clamps to 0.018, and Python `round`
then yields 0.02: the final size is strictly GREATER than the clamped value
(rounded up, not down) and lies OUTSIDE `[minLot, maxLot]`. -/
theorem lot_size_rounds_up_cex :
    calculateLotSize lotInputCex = 1/50 ∧
      lotClamped lotInputCex = 9/500 ∧
      lotInputCex.volumeMax = 9/500 ∧
      lotClamped lotInputCex < calculateLotSize lotInputCex ∧
      ¬(calculateLotSize lotInputCex ≤ lotInputCex.volumeMax) := by
  decide

/-- Claim C6 (corrected): `generate_signal` (signal.py) emits a Sell only
under the mirrored conditions - close strictly below the 200-SMA, three
bullish candles then a bearish one, RSI below 50 - but the coexisting
`generate_sma_crossover_signal` variant emits a Sell only when the close is
ABOVE its 200-SMA (the same side as Buy), in either debug or normal mode. -/
theorem sell_gate_amended (df : List Candle) (dbg : Bool) :
    ((generateSignal df).signal = -1 →
        oLt (fromEnd df 1).cclose (smaAt 200 (closesOf df) (df.length - 1)) = true ∧
          candleDir (fromEnd df 4) = 1 ∧ candleDir (fromEnd df 3) = 1 ∧
          candleDir (fromEnd df 2) = 1 ∧ candleDir (fromEnd df 1) = -1 ∧
          (rsiAt (closesOf df) (df.length - 1)).ltQ 50 = true) ∧
      ((generateSmaCrossoverSignal df dbg).signal = -1 →
        oGt (fromEnd df 1).cclose (smaAt 200 (closesOf df) (df.length - 1)) = true) := by
  constructor
  · intro h
    simp only [generateSignal] at h
    split at h
    · simp at h
    · split at h
      · rename_i hcond
        simp only [Bool.and_eq_true, beq_iff_eq] at hcond
        tauto
      · simp at h
  · intro h
    simp only [generateSmaCrossoverSignal] at h
    split at h
    · simp at h
    · split at h
      · simp at h
      · split at h
        · rename_i hcond
          simp only [Bool.and_eq_true] at hcond
          tauto
        · split at h
          · rename_i hcond
            simp only [Bool.and_eq_true] at hcond
            tauto
          · simp at h

set_option maxRecDepth 100000 in
/-- Claim C6 witness: `generate_signal` says Sell on a window whose close
(98) sits far below its 200-SMA (about 108.95), after three bullish candles
and a bearish one with RSI 0. -/
theorem sell_gate_witness :
    oLt (fromEnd dfSellMirror215 1).cclose
        (smaAt 200 (closesOf dfSellMirror215) (dfSellMirror215.length - 1)) = true ∧
      candleDir (fromEnd dfSellMirror215 4) = 1 ∧
      candleDir (fromEnd dfSellMirror215 3) = 1 ∧
      candleDir (fromEnd dfSellMirror215 2) = 1 ∧
      candleDir (fromEnd dfSellMirror215 1) = -1 ∧
      (rsiAt (closesOf dfSellMirror215) (dfSellMirror215.length - 1)).ltQ 50 = true :=
  (sell_gate_amended dfSellMirror215 false).1 (by decide)

set_option maxRecDepth 100000 in
/-- Claim C6 counterexample: `generate_sma_crossover_signal` emits a Sell on
a window whose close (100) is ABOVE its 200-SMA (about 91.04), so a Sell is
NOT emitted only when the close is below the slow SMA. -/
theorem sell_above_200sma_cex :
    (generateSmaCrossoverSignal dfSellAbove215 false).signal = -1 ∧
      oGt (fromEnd dfSellAbove215 1).cclose
        (smaAt 200 (closesOf dfSellAbove215) (dfSellAbove215.length - 1)) = true := by
  decide

/-- Claim C7 (corrected): the separation thresholds the code actually uses.
`generate_sma_crossover_signal` (outside debug mode) requires
`|sma21 - sma50| > 0.0001` OR a 200-SMA cross within the last 10 candles;
`generate_signal` requires `|sma21 - sma50| > 0.0001` with no crossover
exception and no JPY special case; and `execute`'s inline pre-check skips
the cycle only when `|sma21 - sma50| < 0.0010` (0.01 for JPY) evaluates
true.  Nothing uses the claimed 0.0005. -/
theorem separation_threshold_amended (df : List Candle) (j : Bool) :
    ((generateSmaCrossoverSignal df false).signal ≠ 0 →
        oAbsGt (oSub (smaAt 21 (closesOf df) (df.length - 1))
            (smaAt 50 (closesOf df) (df.length - 1))) (1/10000) = true ∨
          checkPriceCrossed200 df 10 = true) ∧
      ((generateSignal df).signal ≠ 0 →
        oAbsGt (oSub (smaAt 21 (closesOf df) (df.length - 1))
          (smaAt 50 (closesOf df) (df.length - 1))) (1/10000) = true) ∧
      (executeDecision df j ≠ 0 →
        oAbsLt (oSub (smaAt 21 (closesOf df) (df.length - 1))
          (smaAt 50 (closesOf df) (df.length - 1))) (minSmaDistance j) = false) := by
  refine ⟨?_, ?_, ?_⟩
  · intro h
    simp only [generateSmaCrossoverSignal] at h
    split at h
    · rename_i hcond
      simp at hcond
    · split at h
      · rename_i hcond
        simp only [Bool.and_eq_true, sufficientSeparation, Bool.or_eq_true] at hcond
        tauto
      · split at h
        · rename_i hcond
          simp at hcond
        · split at h
          · rename_i hcond
            simp only [Bool.and_eq_true, sufficientSeparation, Bool.or_eq_true] at hcond
            tauto
          · simp at h
  · intro h
    simp only [generateSignal] at h
    split at h
    · rename_i hcond
      simp only [Bool.and_eq_true] at hcond
      tauto
    · split at h
      · rename_i hcond
        simp only [Bool.and_eq_true] at hcond
        tauto
      · simp at h
  · intro h
    simp only [executeDecision] at h
    split at h
    · exact absurd rfl h
    · split at h
      · exact absurd rfl h
      · rename_i hcond
        exact Bool.not_eq_true _ ▸ Bool.eq_false_iff.mpr hcond

set_option maxRecDepth 100000 in
/-- Claim C7 witness: `generate_sma_crossover_signal` emits a Buy on a
window whose 21/50-SMA separation is 29/105000 (about 0.00028 - above the
code's 0.0001, below the claimed 0.0005) with no recent 200-SMA cross, so
the 0.0001 disjunct is the one that holds. -/
theorem separation_threshold_witness :
    oAbsGt (oSub (smaAt 21 (closesOf dfBuyTinySep215) (dfBuyTinySep215.length - 1))
        (smaAt 50 (closesOf dfBuyTinySep215) (dfBuyTinySep215.length - 1))) (1/10000) = true ∨
      checkPriceCrossed200 dfBuyTinySep215 10 = true :=
  (separation_threshold_amended dfBuyTinySep215 false).1 (by decide)

set_option maxRecDepth 100000 in
/-- Claim C7 counterexample: a directional signal (Buy) is emitted although
the 21/50-SMA separation is 29/105000 <= 0.0005 and the price did NOT cross
the 200-SMA in the last 10 candles - so the claimed 0.0005 threshold (with
its crossover waiver) is not what the code enforces. -/
theorem separation_below_claimed_cex :
    (generateSmaCrossoverSignal dfBuyTinySep215 false).signal = 1 ∧
      oSub (smaAt 21 (closesOf dfBuyTinySep215) (dfBuyTinySep215.length - 1))
          (smaAt 50 (closesOf dfBuyTinySep215) (dfBuyTinySep215.length - 1)) =
        some (29/105000) ∧
      (29/105000 : ℚ) ≤ 5/10000 ∧
      checkPriceCrossed200 dfBuyTinySep215 10 = false := by
  decide

/-- Claim C8 (corrected): whenever the rolling average gain and average
loss are not BOTH zero, the RSI cell is a real number in `[0, 100]`, and it
equals 100 exactly when the average loss is zero and the average gain is
positive.  When both averages are zero (e.g. a constant window, or the very
first row) the cell is NaN and the `0 <= RSI <= 100` bound fails (see the
counterexample). -/
theorem rsi_range_amended (closes : List ℚ) (i : ℕ)
    (h : ¬(avgGainAt closes i = 0 ∧ avgLossAt closes i = 0)) :
    (rsiAt closes i).inUnitRange = true ∧
      (rsiAt closes i = FVal.val 100 ↔
        avgLossAt closes i = 0 ∧ 0 < avgGainAt closes i) := by
  have hg := avgGainAt_nonneg closes i
  have hl := avgLossAt_nonneg closes i
  unfold rsiAt rsiOf
  by_cases hl0 : avgLossAt closes i = 0
  · have hg0 : avgGainAt closes i ≠ 0 := fun hgg => h ⟨hgg, hl0⟩
    have hgpos : 0 < avgGainAt closes i := lt_of_le_of_ne hg (Ne.symm hg0)
    rw [if_pos hl0, if_pos hgpos]
    refine ⟨by simp [FVal.inUnitRange], ?_⟩
    simp [hl0, hgpos]
  · have hlpos : 0 < avgLossAt closes i := lt_of_le_of_ne hl (Ne.symm hl0)
    rw [if_neg hl0]
    have hrs0 : 0 ≤ avgGainAt closes i / avgLossAt closes i := div_nonneg hg hl
    have hfrac_pos : 0 < 100 / (1 + avgGainAt closes i / avgLossAt closes i) := by
      positivity
    have hfrac_le : 100 / (1 + avgGainAt closes i / avgLossAt closes i) ≤ 100 :=
      div_le_self (by norm_num) (by linarith)
    constructor
    · simp only [FVal.inUnitRange, decide_eq_true_eq]
      constructor <;> linarith
    · constructor
      · intro hv
        exfalso
        simp only [FVal.val.injEq] at hv
        linarith
      · rintro ⟨hc, _⟩
        exact absurd hc hl0

/-- Claim C8 witness: on the two-candle close series 1, 2 the average gain
is 1/2 and the average loss 0, so the RSI is exactly 100 and sits inside
`[0, 100]`. -/
theorem rsi_range_witness :
    (rsiAt [1, 2] 1).inUnitRange = true ∧
      (rsiAt [1, 2] 1 = FVal.val 100 ↔
        avgLossAt [1, 2] 1 = 0 ∧ 0 < avgGainAt [1, 2] 1) :=
  rsi_range_amended [1, 2] 1 (by decide)

/-- Claim C8 counterexample: on 15 constant closes every delta is zero,
`avg_gain = avg_loss = 0`, the division is `0/0` and the RSI cell is NaN -
in particular `0 <= RSI <= 100` fails on this window. -/
theorem rsi_nan_cex :
    rsiAt constCloses15 14 = FVal.nan ∧
      (rsiAt constCloses15 14).inUnitRange = false := by
  decide

/-- Claim C9 (corrected): for a window shorter than 200 candles,
`calculate_indicators` still returns a table - a PARTIAL snapshot whose
`200_SMA` cells are NaN while e.g. the RSI cells are computed (see the
counterexample) - and no `InsufficientData` failure exists.  The strategy
signal generators do effectively skip such a cycle, because both compare
the close against the 200-SMA and every NaN comparison is false. -/
theorem short_window_no_signal_amended (df : List Candle) (dbg : Bool)
    (hshort : df.length < 200) :
    (generateSmaCrossoverSignal df dbg).signal = 0 ∧
      (generateSignal df).signal = 0 := by
  have h200 : smaAt 200 (closesOf df) (df.length - 1) = none := by
    apply smaAt_none_of_short
    simpa [closesOf] using hshort
  constructor
  · simp [generateSmaCrossoverSignal, h200, oGt]
  · simp [generateSignal, h200, oGt, oLt]

/-- Claim C9 witness: on the 30-candle window neither strategy generator
emits a signal. -/
theorem short_window_no_signal_witness :
    (generateSmaCrossoverSignal dfShortBuy30 false).signal = 0 ∧
      (generateSignal dfShortBuy30).signal = 0 :=
  short_window_no_signal_amended dfShortBuy30 false (by decide)

set_option maxRecDepth 100000 in
/-- Claim C9 counterexample: on a 30-candle window the Indicator Engine
returns a snapshot whose `200_SMA` is NaN but whose `21_SMA` and RSI are
fully computed - a partial snapshot, not an `InsufficientData` failure.
Worse, the `execute` caller does NOT skip the cycle: its
`price <= 200_SMA` and `distance < min` guards are false on NaN, so its
inline logic still reaches a Buy decision on this short window. -/
theorem short_window_partial_snapshot_cex :
    dfShortBuy30.length = 30 ∧
      ((calculateIndicators dfShortBuy30).getD 29 default).sma200 = none ∧
      ((calculateIndicators dfShortBuy30).getD 29 default).sma21 ≠ none ∧
      ((calculateIndicators dfShortBuy30).getD 29 default).rsi ≠ FVal.nan ∧
      executeDecision dfShortBuy30 false = 1 := by
  decide

/-- Claim C10 (corrected): the signal generator is a deterministic function
of the candle data alone - two frames with the same candles yield the same
`(signal, stop_loss, price)` triple whatever columns they already carry -
and it never alters the OHLC data.  But it does NOT leave the caller's
DataFrame unchanged: it mutates it in place by adding the indicator and
helper columns (see the counterexample). -/
theorem signal_frame_amended (f g : Frame) (h : f.candles = g.candles) :
    (generateSignalFrame f).1 = (generateSignalFrame g).1 ∧
      (generateSignalFrame f).2.candles = f.candles := by
  constructor
  · simp only [generateSignalFrame, h]
  · rfl

/-- Claim C10 witness: a raw frame and one already carrying indicator
columns, over the same 30 candles, produce identical signal results, and
the candle data comes back untouched. -/
theorem signal_frame_witness :
    (generateSignalFrame ⟨dfShortBuy30, Cols.raw⟩).1 =
        (generateSignalFrame ⟨dfShortBuy30, calculateIndicatorsCols Cols.raw⟩).1 ∧
      (generateSignalFrame ⟨dfShortBuy30, Cols.raw⟩).2.candles = dfShortBuy30 :=
  signal_frame_amended ⟨dfShortBuy30, Cols.raw⟩
    ⟨dfShortBuy30, calculateIndicatorsCols Cols.raw⟩ rfl

/-- Claim C10 counterexample: after `generate_signal` runs, the caller's
DataFrame is no longer the object it passed in - the `RSI` column (among
others) has appeared on it, so the generator does have a side effect on the
caller's data. -/
theorem signal_mutates_frame_cex :
    (generateSignalFrame ⟨dfShortBuy30, Cols.raw⟩).2 ≠ (⟨dfShortBuy30, Cols.raw⟩ : Frame) ∧
      (generateSignalFrame ⟨dfShortBuy30, Cols.raw⟩).2.cols.rsi = true ∧
      Cols.raw.rsi = false := by
  decide

end MarioTrader
